import Mathlib

/-!
Shallow embedding of the `MIDIEngine` singleton of `src/midi.js` and of its
variant with `deinit` (`src/unnamed/part_000`).  The two files agree on every
shared function, so one embedding covers both.

JavaScript object references are modelled as indices (`DeviceId`) into
explicit heaps of device records, so that mutation through a shared reference
(`currentInput.onmidimessage = …`) is visible to every holder of the
reference.  Host effects are recorded in logs carried by the world state: a
call of an output device's `send` appends to `sendLog`, an invocation of
`window._midi_callback` appends the serialized event string to `callbackLog`.
The handler slot `onmidimessage` of an input device holds the index captured
by the closure installed in `open_input_port`, or nothing when no handler is
attached.
-/

namespace MIDIEngine

/-- Identity of a host device object: stands for a JavaScript object
reference into the corresponding heap. -/
abbrev DeviceId := Nat

/-- A host MIDI input device: `name`, connection `state`, and the
`onmidimessage` handler slot.  The slot stores the index captured by the
closure that `open_input_port` installs, or `none` when cleared. -/
structure InputDevice where
  name : String
  state : String
  onmidimessage : Option Int
  deriving Repr, DecidableEq

/-- A host MIDI output device: `name`, connection `state`, and whether
`typeof device.send === 'function'` holds. -/
structure OutputDevice where
  name : String
  state : String
  hasSend : Bool
  deriving Repr, DecidableEq

/-- The access object granted by `navigator.requestMIDIAccess`: its `inputs`
and `outputs` collections, as lists of device references. -/
structure Access where
  inputs : List DeviceId
  outputs : List DeviceId
  deriving Repr, DecidableEq

/-- The module state of the `MIDIEngine` closure (`midiAccess`, `midiInputs`,
`midiOutputs`, `currentInput`, `currentOutput`), together with the host-side
heaps the device references point into, the presence of
`window._midi_callback`, and the effect logs. -/
structure World where
  inputHeap : List InputDevice
  outputHeap : List OutputDevice
  midiAccess : Option Access
  midiInputs : List DeviceId
  midiOutputs : List DeviceId
  currentInput : Option DeviceId
  currentOutput : Option DeviceId
  callbackDefined : Bool
  callbackLog : List String
  sendLog : List (DeviceId × List Nat)
  deriving Repr, DecidableEq

/-- List lookup by natural index, `none` past the end. -/
def nth {α : Type} : List α → Nat → Option α
  | [], _ => none
  | a :: _, 0 => some a
  | _ :: rest, n + 1 => nth rest n

/-- JavaScript array indexing `arr[i]` for an integer index: `undefined`
(here `none`) for a negative index or one at or past the length. -/
def listGetI {α : Type} (l : List α) (i : Int) : Option α :=
  if 0 ≤ i then nth l i.toNat else none

/-- Assignment `device.onmidimessage = h` through a reference: updates the
slot of the device record at `did`, leaving the heap unchanged when the
reference does not point into it (unreachable for references obtained from
the heap). -/
def setHandler : List InputDevice → DeviceId → Option Int → List InputDevice
  | [], _, _ => []
  | d :: rest, 0, h => { d with onmidimessage := h } :: rest
  | d :: rest, n + 1, h => d :: setHandler rest n h

/-- Hexadecimal digit character, lower case, as `JSON.stringify` emits in
`\u00XX` escapes. -/
def hexDigit (n : Nat) : Char :=
  if n < 10 then Char.ofNat (48 + n) else Char.ofNat (87 + n)

/-- The escape `JSON.stringify` applies to one character of a string. -/
def jsonEscapeChar (c : Char) : String :=
  if c = '"' then "\\\""
  else if c = '\\' then "\\\\"
  else if c = '\n' then "\\n"
  else if c = '\t' then "\\t"
  else if c = '\r' then "\\r"
  else if c = Char.ofNat 8 then "\\b"
  else if c = Char.ofNat 12 then "\\f"
  else if c.toNat < 32 then
    "\\u00" ++ String.mk [hexDigit (c.toNat / 16), hexDigit (c.toNat % 16)]
  else String.singleton c

/-- `JSON.stringify` of a string value. -/
def jsonString (s : String) : String :=
  "\"" ++ String.join (s.data.map jsonEscapeChar) ++ "\""

/-- `JSON.stringify` of an array of strings. -/
def jsonStringArray (l : List String) : String :=
  "[" ++ String.intercalate "," (l.map jsonString) ++ "]"

/-- `JSON.stringify` of an array of numbers (byte values). -/
def jsonNatArray (l : List Nat) : String :=
  "[" ++ String.intercalate "," (l.map toString) ++ "]"

/-- The string `JSON.stringify(\x7bindex: index, data: Array.from(event.data)\x7d)`
built by the handler closure of `open_input_port`. -/
def stringifyEvent (index : Int) (data : List Nat) : String :=
  "\x7b\"index\":" ++ toString index ++ ",\"data\":" ++ jsonNatArray data ++ "\x7d"

/-- Outcome of a settled JavaScript promise. -/
inductive Settled (α : Type) where
  | fulfilled (value : α)
  | rejected (reason : String)
  deriving Repr, DecidableEq

/-- Functorial action on the fulfilment value of a settled promise. -/
def Settled.map {α β : Type} (f : α → β) : Settled α → Settled β
  | .fulfilled a => .fulfilled (f a)
  | .rejected e => .rejected e

/-- `p.then(onOk, onErr)` on a settled promise `p`: the matching handler
runs; the derived promise fulfils with the handler's return value, and
rejects only if the handler itself throws. -/
def promiseThen {α β : Type} (p : Settled α) (onOk : α → Except String β)
    (onErr : String → Except String β) : Settled β :=
  match p with
  | .fulfilled a =>
      match onOk a with
      | .ok b => .fulfilled b
      | .error e => .rejected e
  | .rejected r =>
      match onErr r with
      | .ok b => .fulfilled b
      | .error e => .rejected e

/-- The grant handler of `init` (lines 78-84 of the `deinit` variant): stores
the access object and snapshots its `inputs` and `outputs` collections.  It
performs assignments and logging only, so it never throws; its return value
is `undefined`, modelled as `()` paired with the updated state. -/
def initOnGranted (s : World) (access : Access) : Except String (World × Unit) :=
  Except.ok
    ({ s with
        midiAccess := some access,
        midiInputs := access.inputs,
        midiOutputs := access.outputs }, ())

/-- The denial handler of `init`: `console.error` only, so it neither throws
nor touches the state. -/
def initOnDenied (s : World) (_err : String) : Except String (World × Unit) :=
  Except.ok (s, ())

/-- `init()`: `navigator.requestMIDIAccess({sysex: true}).then(grant, deny)`;
the host's settled request outcome is the parameter. -/
def init (s : World) (hostResult : Settled Access) : Settled (World × Unit) :=
  promiseThen hostResult (initOnGranted s) (initOnDenied s)

/-- `refresh_devices()`: re-snapshots the host's live device collections when
`midiAccess` is set, otherwise warns and changes nothing.  The live
collections at call time are the parameters. -/
def refresh_devices (s : World) (hostInputs hostOutputs : List DeviceId) : World :=
  match s.midiAccess with
  | some _ => { s with midiInputs := hostInputs, midiOutputs := hostOutputs }
  | none => s

/-- `get_input_port_count()`. -/
def get_input_port_count (s : World) : Nat := s.midiInputs.length

/-- `get_output_port_count()`. -/
def get_output_port_count (s : World) : Nat := s.midiOutputs.length

/-- The device record `midiInputs[index]` refers to, if any. -/
def inputAt (s : World) (index : Int) : Option InputDevice :=
  (listGetI s.midiInputs index).bind (fun did => nth s.inputHeap did)

/-- The device record `midiOutputs[index]` refers to, if any. -/
def outputAt (s : World) (index : Int) : Option OutputDevice :=
  (listGetI s.midiOutputs index).bind (fun did => nth s.outputHeap did)

/-- `get_input_port_name(index)`: `midiInputs[index]?.name || ""`. -/
def get_input_port_name (s : World) (index : Int) : String :=
  match inputAt s index with
  | some d => d.name
  | none => ""

/-- `get_output_port_name(index)`: `midiOutputs[index]?.name || ""`. -/
def get_output_port_name (s : World) (index : Int) : String :=
  match outputAt s index with
  | some d => d.name
  | none => ""

/-- Dereference an input device name; references held in `midiInputs` always
point into the heap, so the `""` default is unreachable for well-formed
worlds. -/
def inputNameOf (s : World) (did : DeviceId) : String :=
  match nth s.inputHeap did with
  | some d => d.name
  | none => ""

/-- Dereference an output device name; same remark as `inputNameOf`. -/
def outputNameOf (s : World) (did : DeviceId) : String :=
  match nth s.outputHeap did with
  | some d => d.name
  | none => ""

/-- `get_input_port_names()`: `JSON.stringify(midiInputs.map(i => i.name))`. -/
def get_input_port_names (s : World) : String :=
  jsonStringArray (s.midiInputs.map (inputNameOf s))

/-- `get_output_port_names()`: `JSON.stringify(midiOutputs.map(o => o.name))`. -/
def get_output_port_names (s : World) : String :=
  jsonStringArray (s.midiOutputs.map (outputNameOf s))

/-- `open_input_port(index)`: `currentInput = midiInputs[index] || null`, and
when a device was found, install the message handler closure on it (the
closure captures `index`). -/
def open_input_port (s : World) (index : Int) : World :=
  match listGetI s.midiInputs index with
  | none => { s with currentInput := none }
  | some did =>
      { s with
          currentInput := some did,
          inputHeap := setHandler s.inputHeap did (some index) }

/-- `close_input_port()`: when a binding is active, clear the bound device's
handler slot and the binding; otherwise do nothing. -/
def close_input_port (s : World) : World :=
  match s.currentInput with
  | none => s
  | some did =>
      { s with
          inputHeap := setHandler s.inputHeap did none,
          currentInput := none }

/-- `open_output_port(index)`: `currentOutput = midiOutputs[index] || null`. -/
def open_output_port (s : World) (index : Int) : World :=
  match listGetI s.midiOutputs index with
  | none => { s with currentOutput := none }
  | some did => { s with currentOutput := some did }

/-- `close_output_port()`: `currentOutput = null`. -/
def close_output_port (s : World) : World :=
  { s with currentOutput := none }

/-- `is_input_port_open(index)`: `midiInputs[index]` exists and its `state`
is `"connected"`. -/
def is_input_port_open (s : World) (index : Int) : Bool :=
  match inputAt s index with
  | some d => d.state == "connected"
  | none => false

/-- `is_output_port_open(index)`: `midiOutputs[index]` exists and its `state`
is `"connected"`. -/
def is_output_port_open (s : World) (index : Int) : Bool :=
  match outputAt s index with
  | some d => d.state == "connected"
  | none => false

/-- `send_message(dataArray)`: when `currentOutput` is set and
`typeof currentOutput.send === 'function'`, call `currentOutput.send`,
recorded as an appended `(device, bytes)` entry of `sendLog`; otherwise log
a diagnostic and do nothing. -/
def send_message (s : World) (dataArray : List Nat) : World :=
  match s.currentOutput with
  | some did =>
      match nth s.outputHeap did with
      | some d =>
          if d.hasSend then { s with sendLog := s.sendLog ++ [(did, dataArray)] }
          else s
      | none => s
  | none => s

/-- `deinit()` (the `deinit` variant only): close both bindings, clear both
port lists and the access handle. -/
def deinit (s : World) : World :=
  let s1 := close_input_port s
  let s2 := close_output_port s1
  { s2 with midiInputs := [], midiOutputs := [], midiAccess := none }

/-- Host delivery of an inbound MIDI message to input device `did`: the host
fires the device's `onmidimessage` handler if one is attached.  The handler
body (lines 148-162 of the `deinit` variant) forwards the serialized event
to `window._midi_callback` when that is a function, and otherwise warns and
drops the event. -/
def deliver_message (s : World) (did : DeviceId) (bytes : List Nat) : World :=
  match nth s.inputHeap did with
  | none => s
  | some d =>
      match d.onmidimessage with
      | none => s
      | some idx =>
          if s.callbackDefined then
            { s with callbackLog := s.callbackLog ++ [stringifyEvent idx bytes] }
          else s

/-- The handler currently attached to input device `did`, if any. -/
def handlerOf (s : World) (did : DeviceId) : Option Int :=
  (nth s.inputHeap did).bind InputDevice.onmidimessage

/-- The engine operations other than `init`, for reasoning about arbitrary
call sequences; `deliver` is the host firing an inbound message. -/
inductive Op where
  | refreshDevices (hostInputs hostOutputs : List DeviceId)
  | openInput (index : Int)
  | closeInput
  | openOutput (index : Int)
  | closeOutput
  | sendMessage (bytes : List Nat)
  | deliver (did : DeviceId) (bytes : List Nat)
  | teardown
  deriving Repr, DecidableEq

/-- Interpretation of one operation. -/
def applyOp (s : World) : Op → World
  | .refreshDevices hin hout => refresh_devices s hin hout
  | .openInput i => open_input_port s i
  | .closeInput => close_input_port s
  | .openOutput i => open_output_port s i
  | .closeOutput => close_output_port s
  | .sendMessage b => send_message s b
  | .deliver did b => deliver_message s did b
  | .teardown => deinit s

/-- Run a sequence of operations. -/
def runOps (s : World) (ops : List Op) : World := ops.foldl applyOp s

/-- The state `deinit` establishes: no access handle, empty port lists, both
bindings cleared. -/
def Deinitialized (s : World) : Prop :=
  s.midiAccess = none ∧ s.midiInputs = [] ∧ s.midiOutputs = [] ∧
  s.currentInput = none ∧ s.currentOutput = none

/-- Sample input device, index 0 of `sampleWorld`. -/
def sampleInA : InputDevice :=
  { name := "DeviceA", state := "connected", onmidimessage := none }

/-- Sample input device, index 1 of `sampleWorld`. -/
def sampleInB : InputDevice :=
  { name := "DeviceB", state := "connected", onmidimessage := none }

/-- Sample output device of `sampleWorld`. -/
def sampleOut : OutputDevice :=
  { name := "DeviceC", state := "connected", hasSend := true }

/-- A world after a granted `init` with two inputs and one output, matching
the scenario of the spec. -/
def sampleWorld : World :=
  { inputHeap := [sampleInA, sampleInB],
    outputHeap := [sampleOut],
    midiAccess := some { inputs := [0, 1], outputs := [0] },
    midiInputs := [0, 1],
    midiOutputs := [0],
    currentInput := none,
    currentOutput := none,
    callbackDefined := true,
    callbackLog := [],
    sendLog := [] }

/-- `sampleWorld` after `open_input_port(0)`: device 0 holds a handler and is
the current input. -/
def boundWorld : World :=
  { sampleWorld with
      inputHeap := [{ sampleInA with onmidimessage := some 0 }, sampleInB],
      currentInput := some 0 }

/-- A world whose input list is empty while its output list is not: the
empty-list case of the name getters on one side only. -/
def mixedWorld : World :=
  { inputHeap := [],
    outputHeap := [sampleOut],
    midiAccess := some { inputs := [], outputs := [0] },
    midiInputs := [],
    midiOutputs := [0],
    currentInput := none,
    currentOutput := none,
    callbackDefined := true,
    callbackLog := [],
    sendLog := [] }

/-- A world before any `init`. -/
def freshWorld : World :=
  { inputHeap := [],
    outputHeap := [],
    midiAccess := none,
    midiInputs := [],
    midiOutputs := [],
    currentInput := none,
    currentOutput := none,
    callbackDefined := false,
    callbackLog := [],
    sendLog := [] }

theorem nth_eq_none {α : Type} (l : List α) (n : Nat) (h : l.length ≤ n) :
    nth l n = none := by
  induction l generalizing n with
  | nil => rfl
  | cons a rest ih =>
    cases n with
    | zero => simp at h
    | succ m => exact ih m (by simpa using h)

theorem listGetI_eq_none {α : Type} (l : List α) (i : Int)
    (h : i < 0 ∨ (l.length : Int) ≤ i) : listGetI l i = none := by
  unfold listGetI
  by_cases h0 : 0 ≤ i
  · rw [if_pos h0]
    exact nth_eq_none l i.toNat (by omega)
  · rw [if_neg h0]

theorem nth_setHandler_self (heap : List InputDevice) (did : DeviceId)
    (h : Option Int) :
    nth (setHandler heap did h) did
      = (nth heap did).map (fun d => { d with onmidimessage := h }) := by
  induction heap generalizing did with
  | nil => rfl
  | cons d rest ih =>
    cases did with
    | zero => rfl
    | succ n => simpa [setHandler, nth] using ih n

theorem nth_setHandler_ne (heap : List InputDevice) (did did2 : DeviceId)
    (h : Option Int) (hne : did2 ≠ did) :
    nth (setHandler heap did h) did2 = nth heap did2 := by
  induction heap generalizing did did2 with
  | nil => rfl
  | cons d rest ih =>
    cases did with
    | zero =>
      cases did2 with
      | zero => exact absurd rfl hne
      | succ m => rfl
    | succ n =>
      cases did2 with
      | zero => rfl
      | succ m =>
        have hne2 : m ≠ n := by
          intro hh
          exact hne (by rw [hh])
        simpa [setHandler, nth] using ih n m hne2

/-- C1: when `open_output_port(i)` resolves index `i` to a device whose
`send` is a function, a following `send_message(b)` invokes that device's
host send operation exactly once with `b` unchanged — the send log grows by
the single entry `(did, b)`, same length, bytes and order. -/
theorem c1_send_round_trip (s : World) (i : Int) (b : List Nat)
    (did : DeviceId) (d : OutputDevice)
    (hdid : listGetI s.midiOutputs i = some did)
    (hd : nth s.outputHeap did = some d)
    (hsend : d.hasSend = true) :
    (send_message (open_output_port s i) b).sendLog = s.sendLog ++ [(did, b)] := by
  have hopen : open_output_port s i = { s with currentOutput := some did } := by
    unfold open_output_port
    rw [hdid]
  rw [hopen]
  unfold send_message
  simp [hd, hsend]

/-- Witness for C1 at the sample world: `open_output_port(0)` then sending
`[144, 60, 127]` records exactly that byte list for device 0. -/
theorem c1_send_round_trip_witness :
    (send_message (open_output_port sampleWorld 0) [144, 60, 127]).sendLog
      = sampleWorld.sendLog ++ [(0, [144, 60, 127])] :=
  c1_send_round_trip sampleWorld 0 [144, 60, 127] 0 sampleOut
    (by decide) (by decide) (by decide)

/-- C2: for every index outside `[0, count)` of the respective cached list —
negative indices and the empty-list case included, each list judged on its
own — the respective name getter returns `""` and the respective open call
clears the respective binding; all four functions are total, so none raises
an error. -/
theorem c2_out_of_range (s : World) (i : Int) :
    ((i < 0 ∨ (s.midiInputs.length : Int) ≤ i) →
      get_input_port_name s i = "" ∧
      (open_input_port s i).currentInput = none) ∧
    ((i < 0 ∨ (s.midiOutputs.length : Int) ≤ i) →
      get_output_port_name s i = "" ∧
      (open_output_port s i).currentOutput = none) := by
  constructor
  · intro hin
    have h1 := listGetI_eq_none s.midiInputs i hin
    refine ⟨by simp [get_input_port_name, inputAt, h1], ?_⟩
    unfold open_input_port
    rw [h1]
  · intro hout
    have h2 := listGetI_eq_none s.midiOutputs i hout
    refine ⟨by simp [get_output_port_name, outputAt, h2], ?_⟩
    unfold open_output_port
    rw [h2]

/-- Witness for C2 at the mixed cases: index 0 on an empty input list while
the output list is non-empty, and index 1 on the output side of the
two-inputs/one-output sample world. -/
theorem c2_out_of_range_witness :
    (get_input_port_name mixedWorld 0 = "" ∧
      (open_input_port mixedWorld 0).currentInput = none) ∧
    (get_output_port_name sampleWorld 1 = "" ∧
      (open_output_port sampleWorld 1).currentOutput = none) :=
  ⟨(c2_out_of_range mixedWorld 0).1 (by decide),
   (c2_out_of_range sampleWorld 1).2 (by decide)⟩

/-- C4: `send_message` with no active output binding performs no host send
and changes nothing — the resulting world is the argument itself, and the
function is total, so no error is raised. -/
theorem c4_send_no_binding (s : World) (bytes : List Nat)
    (h : s.currentOutput = none) :
    send_message s bytes = s := by
  unfold send_message
  rw [h]

/-- Witness for C4: sending the spec's `[0x90, 60, 127]` on the sample world,
which has no output binding, is the identity. -/
theorem c4_send_no_binding_witness :
    send_message sampleWorld [144, 60, 127] = sampleWorld :=
  c4_send_no_binding sampleWorld [144, 60, 127] rfl

/-- C6: when the host denies the access request, `init` leaves the manager
state exactly as before the call — in particular `midiAccess` stays `none` —
and the returned promise fulfils, so no exception propagates. -/
theorem c6_denied_state_unchanged (s : World) (e : String)
    (h : s.midiAccess = none) :
    init s (Settled.rejected e) = Settled.fulfilled (s, ()) ∧
    s.midiAccess = none :=
  ⟨rfl, h⟩

/-- Witness for C6 at the uninitialized world. -/
theorem c6_denied_state_unchanged_witness :
    init freshWorld (Settled.rejected "denied") = Settled.fulfilled (freshWorld, ()) ∧
    freshWorld.midiAccess = none :=
  c6_denied_state_unchanged freshWorld "denied" rfl

/-- C8: the port-open checks report `true` exactly when a descriptor exists
at the index in the respective cached list and its host connection state is
`"connected"`, and the results do not depend on the current bindings. -/
theorem c8_is_open_iff_connected (s : World) (i : Int) :
    (is_input_port_open s i = true ↔
      ∃ d, inputAt s i = some d ∧ d.state = "connected") ∧
    (is_output_port_open s i = true ↔
      ∃ d, outputAt s i = some d ∧ d.state = "connected") ∧
    (∀ ci co : Option DeviceId,
      is_input_port_open { s with currentInput := ci, currentOutput := co } i
        = is_input_port_open s i ∧
      is_output_port_open { s with currentInput := ci, currentOutput := co } i
        = is_output_port_open s i) := by
  refine ⟨?_, ?_, ?_⟩
  · cases hd : inputAt s i <;> simp [is_input_port_open, hd]
  · cases hd : outputAt s i <;> simp [is_output_port_open, hd]
  · intro ci co
    exact ⟨by simp [is_input_port_open, inputAt],
           by simp [is_output_port_open, outputAt]⟩

/-- C3: after `open_input_port(i)` finds the descriptor `did` at index `i`,
a host-delivered message with raw `bytes` for that descriptor triggers
`window._midi_callback` exactly once, with the serialized event whose
`index` field is `i` and whose `data` field is `bytes`; when the callback
slot holds no function the event is dropped after a diagnostic — the state,
so in particular the callback log, is unchanged: nothing is buffered,
queued or retried. -/
theorem c3_inbound_message_dispatch (s : World) (i : Int) (did : DeviceId)
    (d : InputDevice) (bytes : List Nat)
    (hdid : listGetI s.midiInputs i = some did)
    (hd : nth s.inputHeap did = some d) :
    ((open_input_port s i).callbackDefined = true →
      (deliver_message (open_input_port s i) did bytes).callbackLog
        = (open_input_port s i).callbackLog ++ [stringifyEvent i bytes]) ∧
    ((open_input_port s i).callbackDefined = false →
      deliver_message (open_input_port s i) did bytes = open_input_port s i) := by
  have hopen : open_input_port s i
      = { s with
            currentInput := some did,
            inputHeap := setHandler s.inputHeap did (some i) } := by
    unfold open_input_port
    rw [hdid]
  have hnth : nth (setHandler s.inputHeap did (some i)) did
      = some { d with onmidimessage := some i } := by
    rw [nth_setHandler_self, hd]
    rfl
  rw [hopen]
  constructor
  · intro hcb
    have hcb2 : s.callbackDefined = true := hcb
    unfold deliver_message
    simp [hnth, hcb2]
  · intro hcb
    have hcb2 : s.callbackDefined = false := hcb
    unfold deliver_message
    simp [hnth, hcb2]

/-- Witness for C3 at the sample world with `open_input_port(1)` and the
spec's bytes `[144, 60, 127]`. -/
theorem c3_inbound_message_dispatch_witness :
    ((open_input_port sampleWorld 1).callbackDefined = true →
      (deliver_message (open_input_port sampleWorld 1) 1 [144, 60, 127]).callbackLog
        = (open_input_port sampleWorld 1).callbackLog
          ++ [stringifyEvent 1 [144, 60, 127]]) ∧
    ((open_input_port sampleWorld 1).callbackDefined = false →
      deliver_message (open_input_port sampleWorld 1) 1 [144, 60, 127]
        = open_input_port sampleWorld 1) :=
  c3_inbound_message_dispatch sampleWorld 1 1 sampleInB [144, 60, 127]
    (by decide) (by decide)

/-- C7: after `close_input_port`, a host-delivered message for the
descriptor that was bound at the time of the close changes nothing — the
close detached that descriptor's handler and cleared the binding, so the
message never reaches the application callback. -/
theorem c7_closed_port_message_dropped (s : World) (did : DeviceId)
    (bytes : List Nat) (h : s.currentInput = some did) :
    deliver_message (close_input_port s) did bytes = close_input_port s := by
  have hclose : close_input_port s
      = { s with
            inputHeap := setHandler s.inputHeap did none,
            currentInput := none } := by
    unfold close_input_port
    rw [h]
  rw [hclose]
  unfold deliver_message
  cases hnth : nth s.inputHeap did with
  | none => simp [nth_setHandler_self, hnth]
  | some d => simp [nth_setHandler_self, hnth]

/-- Witness for C7 at the bound sample world, closing and then delivering
`[144, 60, 127]` for the previously bound device 0. -/
theorem c7_closed_port_message_dropped_witness :
    deliver_message (close_input_port boundWorld) 0 [144, 60, 127]
      = close_input_port boundWorld :=
  c7_closed_port_message_dropped boundWorld 0 [144, 60, 127] rfl

/-- C9: `open_input_port` while another input is bound only overwrites the
current-input reference: the previously bound descriptor keeps a handler
attached (the open never detaches it), and whenever the open resolves to a
different descriptor — or to none — the previous descriptor's handler is
exactly unchanged. -/
theorem c9_open_preserves_previous_handler (s : World) (i : Int)
    (did0 : DeviceId) (h0 : Int)
    (hcur : s.currentInput = some did0)
    (hh : handlerOf s did0 = some h0) :
    (handlerOf (open_input_port s i) did0).isSome = true ∧
    (listGetI s.midiInputs i ≠ some did0 →
      handlerOf (open_input_port s i) did0 = some h0) ∧
    (open_input_port s i).currentInput = listGetI s.midiInputs i := by
  cases hres : listGetI s.midiInputs i with
  | none =>
    have hopen : open_input_port s i = { s with currentInput := none } := by
      unfold open_input_port
      rw [hres]
    rw [hopen]
    have hsame : handlerOf { s with currentInput := none } did0 = some h0 := hh
    exact ⟨by rw [hsame]; rfl, fun _ => hsame, rfl⟩
  | some did =>
    have hopen : open_input_port s i
        = { s with
              currentInput := some did,
              inputHeap := setHandler s.inputHeap did (some i) } := by
      unfold open_input_port
      rw [hres]
    rw [hopen]
    by_cases hde : did = did0
    · subst hde
      obtain ⟨d, hd, hdh⟩ :
          ∃ d, nth s.inputHeap did = some d ∧ d.onmidimessage = some h0 := by
        unfold handlerOf at hh
        cases hx : nth s.inputHeap did with
        | none => rw [hx] at hh; exact absurd hh (by simp)
        | some d => rw [hx] at hh; exact ⟨d, rfl, hh⟩
      refine ⟨?_, fun hne => absurd rfl hne, rfl⟩
      show ((nth (setHandler s.inputHeap did (some i)) did).bind
        InputDevice.onmidimessage).isSome = true
      rw [nth_setHandler_self, hd]
      rfl
    · have hne0 : did0 ≠ did := fun hx => hde hx.symm
      have hkeep : handlerOf
          { s with
              currentInput := some did,
              inputHeap := setHandler s.inputHeap did (some i) } did0
            = some h0 := by
        show ((nth (setHandler s.inputHeap did (some i)) did0).bind
          InputDevice.onmidimessage) = some h0
        rw [nth_setHandler_ne s.inputHeap did did0 (some i) hne0]
        exact hh
      exact ⟨by rw [hkeep]; rfl, fun _ => hkeep, rfl⟩

/-- Witness for C9 at the bound sample world: opening index 1 while device 0
is bound with a handler leaves device 0's handler attached and unchanged. -/
theorem c9_open_preserves_previous_handler_witness :
    (handlerOf (open_input_port boundWorld 1) 0).isSome = true ∧
    (listGetI boundWorld.midiInputs 1 ≠ some 0 →
      handlerOf (open_input_port boundWorld 1) 0 = some 0) ∧
    (open_input_port boundWorld 1).currentInput
      = listGetI boundWorld.midiInputs 1 :=
  c9_open_preserves_previous_handler boundWorld 1 0 0 (by decide) (by decide)

theorem listGetI_nil {α : Type} (i : Int) : listGetI ([] : List α) i = none := by
  unfold listGetI
  split <;> rfl

theorem deliver_message_cases (s : World) (did : DeviceId) (b : List Nat) :
    deliver_message s did b = s ∨
    ∃ idx, deliver_message s did b
      = { s with callbackLog := s.callbackLog ++ [stringifyEvent idx b] } := by
  unfold deliver_message
  split
  · exact Or.inl rfl
  · split
    · exact Or.inl rfl
    · split
      · exact Or.inr ⟨_, rfl⟩
      · exact Or.inl rfl

theorem deinit_establishes_deinit_state (s : World) : Deinitialized (deinit s) := by
  cases h : s.currentInput <;>
    simp [deinit, close_input_port, close_output_port, h, Deinitialized]

theorem applyOp_keeps_deinit_state (s : World) (op : Op) (h : Deinitialized s) :
    Deinitialized (applyOp s op) := by
  obtain ⟨h1, h2, h3, h4, h5⟩ := h
  cases op with
  | refreshDevices hin hout =>
    show Deinitialized (refresh_devices s hin hout)
    unfold refresh_devices
    rw [h1]
    exact ⟨h1, h2, h3, h4, h5⟩
  | openInput i =>
    show Deinitialized (open_input_port s i)
    unfold open_input_port
    rw [h2, listGetI_nil]
    exact ⟨h1, rfl, h3, rfl, h5⟩
  | closeInput =>
    show Deinitialized (close_input_port s)
    unfold close_input_port
    rw [h4]
    exact ⟨h1, h2, h3, h4, h5⟩
  | openOutput i =>
    show Deinitialized (open_output_port s i)
    unfold open_output_port
    rw [h3, listGetI_nil]
    exact ⟨h1, h2, rfl, h4, rfl⟩
  | closeOutput =>
    show Deinitialized (close_output_port s)
    exact ⟨h1, h2, h3, h4, rfl⟩
  | sendMessage b =>
    show Deinitialized (send_message s b)
    unfold send_message
    rw [h5]
    exact ⟨h1, h2, h3, h4, h5⟩
  | deliver did b =>
    show Deinitialized (deliver_message s did b)
    rcases deliver_message_cases s did b with hc | ⟨idx, hc⟩ <;> rw [hc]
    · exact ⟨h1, h2, h3, h4, h5⟩
    · exact ⟨h1, h2, h3, h4, h5⟩
  | teardown =>
    exact deinit_establishes_deinit_state s

theorem runOps_keeps_deinit_state (s : World) (ops : List Op)
    (h : Deinitialized s) : Deinitialized (runOps s ops) := by
  induction ops generalizing s with
  | nil => exact h
  | cons op rest ih => exact ih (applyOp s op) (applyOp_keeps_deinit_state s op h)

theorem jsonStringArray_nil : jsonStringArray [] = "[]" := by decide

/-- C5: `deinit` closes both bindings, clears both port lists and the access
handle; and after it, under any sequence of further operations other than
`init`, every query returns the zero, empty or false result: the counts are
0, the open checks are false at every index, and the serialized name lists
are the empty JSON array. -/
theorem c5_deinit_quiescent (s : World) (ops : List Op) :
    (deinit s).currentInput = none ∧ (deinit s).currentOutput = none ∧
    (deinit s).midiInputs = [] ∧ (deinit s).midiOutputs = [] ∧
    (deinit s).midiAccess = none ∧
    get_input_port_count (runOps (deinit s) ops) = 0 ∧
    get_output_port_count (runOps (deinit s) ops) = 0 ∧
    (∀ i : Int, is_input_port_open (runOps (deinit s) ops) i = false) ∧
    (∀ i : Int, is_output_port_open (runOps (deinit s) ops) i = false) ∧
    get_input_port_names (runOps (deinit s) ops) = "[]" ∧
    get_output_port_names (runOps (deinit s) ops) = "[]" := by
  have hd := deinit_establishes_deinit_state s
  have hr := runOps_keeps_deinit_state (deinit s) ops hd
  obtain ⟨r1, r2, r3, r4, r5⟩ := hr
  obtain ⟨d1, d2, d3, d4, d5⟩ := hd
  refine ⟨d4, d5, d2, d3, d1, ?_, ?_, ?_, ?_, ?_, ?_⟩
  · simp [get_input_port_count, r2]
  · simp [get_output_port_count, r3]
  · intro i
    simp [is_input_port_open, inputAt, r2, listGetI_nil]
  · intro i
    simp [is_output_port_open, outputAt, r3, listGetI_nil]
  · simp [get_input_port_names, r2, jsonStringArray_nil]
  · simp [get_output_port_names, r3, jsonStringArray_nil]

/-- C10: the promise `init` returns always fulfils — in the granted and in
the denied case alike — and its fulfilment value (the `undefined` a caller
observes) is identical in both cases, so grant cannot be told from denial
through the asynchronous result alone. -/
theorem c10_init_always_fulfils (s : World) (hostResult : Settled Access) :
    (∃ w : World, init s hostResult = Settled.fulfilled (w, ())) ∧
    (∀ a : Access, ∀ e : String,
      Settled.map Prod.snd (init s (Settled.fulfilled a))
        = Settled.map Prod.snd (init s (Settled.rejected e))) := by
  constructor
  · cases hostResult with
    | fulfilled a => exact ⟨_, rfl⟩
    | rejected e => exact ⟨s, rfl⟩
  · intro a e
    rfl

end MIDIEngine
